import Mathlib

/-!
# Verification of the ComfyUI workflow-importer batch import controller

A shallow embedding of `src/web/workflow_importer.js` (class
`WorkflowImportDialog`).  External collaborators — the fetch transport,
`JSON.parse`, and `app.loadGraphData` — are passed in as explicit
parameters; everything else is translated directly from the source.
-/

namespace WorkflowImporter

/-- A JavaScript value, as far as the importer inspects one: it only ever
asks for truthiness, whether the value is a string (`typeof x === "string"`),
and passes values through otherwise.  `vObj` stands for any object/array,
identified by an opaque tag. -/
inductive JsVal : Type where
  | vUndefined : JsVal
  | vNull : JsVal
  | vBool : Bool → JsVal
  | vNum : Int → JsVal
  | vStr : String → JsVal
  | vObj : Nat → JsVal
  deriving Repr, DecidableEq

/-- JavaScript truthiness: `undefined`, `null`, `false`, `0`, `""` are falsy;
every object is truthy. -/
def truthy : JsVal → Bool
  | .vUndefined => false
  | .vNull => false
  | .vBool b => b
  | .vNum n => !(n = 0)
  | .vStr s => !(s = "")
  | .vObj _ => true

/-- A member of the `files` list handed to `handleFileSelect`: only the
`name` and `type` attributes are read. -/
structure JsFile where
  name : String
  mime : String
  deriving Repr, DecidableEq

/-- The severity argument of `showStatus(message, type)`. -/
inductive Severity : Type where
  | info | success | warning | error
  deriving Repr, DecidableEq

/-- Observable state of the dialog: `this.isOpen` and `this.isProcessing`. -/
structure DialogState where
  isOpen : Bool
  isProcessing : Bool
  deriving Repr, DecidableEq

/-- `close()` (source lines 53–57): sets `isOpen = false`, hides the overlay,
and sets `isProcessing = false`, unconditionally. -/
def closeState (_s : DialogState) : DialogState :=
  { isOpen := false, isProcessing := false }

/-- The state part of `show()` (source lines 59–61): `isOpen = true`,
`isProcessing = false` (the rest of `show` rebuilds DOM content). -/
def showState (_s : DialogState) : DialogState :=
  { isOpen := true, isProcessing := false }

/-- `toggle()`: close if open, show if closed. -/
def toggleState (s : DialogState) : DialogState :=
  if s.isOpen then closeState s else showState s

/-- Outcome of one `await this.processImageFile(file)` call as observed by the
batch loop: the returned object's `success`/`error` fields, or a thrown
exception (caught by the loop's `try`/`catch`).  Passed in as an oracle. -/
inductive ProcResult : Type where
  | ok : ProcResult
  | fail : String → ProcResult
  | thrown : String → ProcResult
  deriving Repr, DecidableEq

/-- `pre` is a prefix of `s` — JavaScript `s.startsWith(pre)`, computed on
the underlying character lists. -/
def strStartsWith (pre s : String) : Bool :=
  pre.data.isPrefixOf s.data

/-- The MIME filter of `handleFileSelect`:
`Array.from(files).filter(f => f.type.startsWith("image/"))`. -/
def filterImages (files : List JsFile) : List JsFile :=
  files.filter (fun f => strStartsWith "image/" f.mime)

/-- Accumulator of the batch loop: `successCount`, `failCount`, `errors`,
plus the trace of `showStatus` calls and of files actually processed. -/
structure LoopAcc where
  successCount : Nat
  failCount : Nat
  errors : List String
  statuses : List (String × Severity)
  processed : List JsFile
  deriving Repr, DecidableEq

/-- One iteration of the `for (const file of imageFiles)` loop
(source lines 208–224): show `` `Processing: ${file.name}...` ``, run
`processImageFile` (the oracle `proc`), then either count the success, or
count the failure and record `` `${file.name}: ${reason}` `` — a returned
`{success: false}` and a thrown exception are handled alike. -/
def stepAcc (proc : JsFile → ProcResult) (f : JsFile) (acc : LoopAcc) : LoopAcc :=
  let acc1 : LoopAcc :=
    { acc with
      statuses := acc.statuses ++ [("Processing: " ++ f.name ++ "...", Severity.info)]
      processed := acc.processed ++ [f] }
  match proc f with
  | .ok => { acc1 with successCount := acc1.successCount + 1 }
  | .fail e =>
      { acc1 with
        failCount := acc1.failCount + 1
        errors := acc1.errors ++ [f.name ++ ": " ++ e] }
  | .thrown m =>
      { acc1 with
        failCount := acc1.failCount + 1
        errors := acc1.errors ++ [f.name ++ ": " ++ m] }

/-- The `for (const file of imageFiles)` loop of `handleFileSelect`:
strictly sequential, file *i* finishes before file *i+1* starts, and a
per-file failure never aborts the loop. -/
def processLoop (proc : JsFile → ProcResult) : List JsFile → LoopAcc → LoopAcc
  | [], acc => acc
  | f :: rest, acc => processLoop proc rest (stepAcc proc f acc)

/-- Everything observable about one `handleFileSelect(files)` call: the final
dialog state, every `showStatus` call in order, the files actually handed to
`processImageFile`, the final counters and error list, and the delay of the
`setTimeout(() => this.close(), 1500)` scheduled on full success (if any). -/
structure BatchResult where
  state : DialogState
  statuses : List (String × Severity)
  processed : List JsFile
  successCount : Nat
  failCount : Nat
  errors : List String
  pendingCloseDelay : Option Nat
  deriving Repr, DecidableEq

/-- A call that returns without doing anything observable. -/
def silentReturn (st : DialogState) : BatchResult :=
  { state := st, statuses := [], processed := [], successCount := 0
    failCount := 0, errors := [], pendingCloseDelay := none }

/-- The accumulator at the loop entry: counters zeroed, the initial
`` `Processing ${imageFiles.length} image(s)...` `` status already shown. -/
def initAcc (n : Nat) : LoopAcc :=
  { successCount := 0, failCount := 0, errors := []
    statuses := [("Processing " ++ toString n ++ " image(s)...", Severity.info)]
    processed := [] }

/-- Lines 226–243: `this.isProcessing = false` followed by the three-way
final classification, scheduling `setTimeout(() => this.close(), 1500)` only
in the all-success branch. -/
def finalizeBatch (st : DialogState) (acc : LoopAcc) : BatchResult :=
  let st2 : DialogState := { st with isProcessing := false }
  if acc.successCount > 0 && acc.failCount == 0 then
    { state := st2
      statuses := acc.statuses ++
        [("✓ Successfully imported " ++ toString acc.successCount ++ " workflow(s)!",
          Severity.success)]
      processed := acc.processed, successCount := acc.successCount
      failCount := acc.failCount, errors := acc.errors
      pendingCloseDelay := some 1500 }
  else if acc.successCount > 0 && acc.failCount > 0 then
    { state := st2
      statuses := acc.statuses ++
        [("Imported " ++ toString acc.successCount ++ " workflow(s), " ++
            toString acc.failCount ++ " failed:\n" ++
            String.intercalate "\n" acc.errors,
          Severity.warning)]
      processed := acc.processed, successCount := acc.successCount
      failCount := acc.failCount, errors := acc.errors
      pendingCloseDelay := none }
  else
    { state := st2
      statuses := acc.statuses ++
        [("Failed to import workflows:\n" ++ String.intercalate "\n" acc.errors,
          Severity.error)]
      processed := acc.processed, successCount := acc.successCount
      failCount := acc.failCount, errors := acc.errors
      pendingCloseDelay := none }

/-- `async handleFileSelect(files)` (source lines 185–244), with the per-file
work `processImageFile` abstracted as the oracle `proc`.  `files` is `none`
for a null `FileList`.  Faithful to the source's order of guards:
(1) `!files || files.length === 0` returns silently;
(2) `isProcessing` shows the busy warning and returns;
(3) the `image/` filter;
(4) empty filtered set shows the validation error and returns;
then `this.isProcessing = true`, the sequential loop, and `finalizeBatch`
(reset of `isProcessing` and the final classification).  The intermediate
state `{ st with isProcessing := true }` is observable only through the
transition system `Step` below. -/
def handleFileSelect (proc : JsFile → ProcResult) (st : DialogState)
    (files : Option (List JsFile)) : BatchResult :=
  match files with
  | none => silentReturn st
  | some fs =>
    if fs.length = 0 then silentReturn st
    else if st.isProcessing then
      { state := st
        statuses := [("Please wait for current import to complete...", Severity.warning)]
        processed := [], successCount := 0, failCount := 0, errors := []
        pendingCloseDelay := none }
    else
      let imageFiles := filterImages fs
      if imageFiles.length = 0 then
        { state := st
          statuses := [("No valid image files selected.", Severity.error)]
          processed := [], successCount := 0, failCount := 0, errors := []
          pendingCloseDelay := none }
      else
        finalizeBatch st (processLoop proc imageFiles (initAcc imageFiles.length))

/-! ## Extraction Client: `extractWorkflowFromData` (source lines 267–300) -/

/-- The JSON body of a completed extraction response, as the client reads it:
`result.success`, `result.error` (a string or absent), and the passed-through
`result.workflow`, `result.prompt`, `result.info` (absent fields are
`vUndefined`). -/
structure ExtractBody where
  success : Bool
  error : Option String
  workflow : JsVal
  prompt : JsVal
  info : JsVal
  deriving Repr, DecidableEq

/-- What the transport does for one `api.fetchApi` call: throw at the fetch
itself, or deliver a response carrying `ok`, `status`, and the outcome of
`response.json()` (which may itself throw, e.g. on a malformed body). -/
inductive FetchOutcome : Type where
  | throws : String → FetchOutcome
  | response : Bool → Nat → Except String ExtractBody → FetchOutcome
  deriving Repr

/-- The normalized result of `extractWorkflowFromData`. -/
inductive ExtractResult : Type where
  | success : JsVal → JsVal → JsVal → ExtractResult
  | failure : String → ExtractResult
  deriving Repr, DecidableEq

/-- JavaScript `a || b` on a string-or-absent left operand: the right operand
is used when `a` is absent **or** falsy (the empty string). -/
def jsOrElse (a : Option String) (b : String) : String :=
  match a with
  | some s => if s = "" then b else s
  | none => b

/-- The body of the `try` block of `extractWorkflowFromData`: `.error m`
models a thrown exception whose `message` is `m` (the explicit
`` throw new Error(`Extraction failed: ${response.status}`) `` on a
non-`ok` response, or a throw from `fetch`/`response.json()`). -/
def extractTryBlock (fetch : FetchOutcome) : Except String ExtractResult :=
  match fetch with
  | .throws m => .error m
  | .response ok status bodyE =>
    if !ok then .error ("Extraction failed: " ++ toString status)
    else
      match bodyE with
      | .error m => .error m
      | .ok body =>
        if !body.success then
          .ok (.failure (jsOrElse body.error "No workflow found in image"))
        else
          .ok (.success body.workflow body.prompt body.info)

/-- `async extractWorkflowFromData(file)`: the `try` block wrapped in the
catch-all that returns `` {success: false, error: `Extraction failed: ${err.message}`} ``. -/
def extractWorkflowFromData (fetch : FetchOutcome) : ExtractResult :=
  match extractTryBlock fetch with
  | .ok r => r
  | .error m => .failure ("Extraction failed: " ++ m)

/-! ## Graph Loader Adapter: `loadWorkflow` (source lines 302–333) -/

/-- One `app.loadGraphData(graphData, true, true, tabName)` invocation. -/
structure HostCall where
  graphData : JsVal
  clean : Bool
  newTab : Bool
  tabName : String
  deriving Repr, DecidableEq

/-- The observable result of `loadWorkflow`: the returned
`{success, error?}` object and the host call attempted, if any. -/
structure LoadResult where
  success : Bool
  error : Option String
  hostCall : Option HostCall
  deriving Repr, DecidableEq

/-- The payload selection of `loadWorkflow` (source lines 307–316): the
`if (workflowJson) ... else if (promptJson) ...` chain, i.e. decided by
JavaScript truthiness.  `none` means `graphData` keeps its initial `null`. -/
def choosePayload (workflowJson promptJson : JsVal) : Option JsVal :=
  if truthy workflowJson then some workflowJson
  else if truthy promptJson then some promptJson
  else none

/-- `typeof x === "string" ? JSON.parse(x) : x`, with `JSON.parse` supplied
as the host parameter `parse`; `.error` is a thrown parse exception. -/
def parseIfString (parse : String → Except String JsVal) (v : JsVal) :
    Except String JsVal :=
  match v with
  | .vStr s => parse s
  | _ => .ok v

/-- `filename.replace(/\.[^/.]+$/, "")` computed on the reversed character
list: the regex strips a final `.`-segment that is nonempty and contains
neither `/` nor `.`; `some revStem` is the reversed remaining stem, `none`
means the regex did not match.  `seen` records whether at least one
eligible character has been consumed. -/
def revStemAfterStrip : List Char → Bool → Option (List Char)
  | [], _ => none
  | c :: rest, seen =>
    if c = '.' then (if seen then some rest else none)
    else if c = '/' then none
    else revStemAfterStrip rest true

/-- `filename.replace(/\.[^/.]+$/, "")`. -/
def stripLastExtension (s : String) : String :=
  match revStemAfterStrip s.data.reverse false with
  | some revStem => String.mk revStem.reverse
  | none => s

/-- `` const tabName = filename.replace(/\.[^/.]+$/, "") || "Imported Workflow" `` -/
def deriveTabName (filename : String) : String :=
  let stripped := stripLastExtension filename
  if stripped = "" then "Imported Workflow" else stripped

/-- The body of the `try` block of `loadWorkflow`: select the payload by
truthiness, parse a textual payload (a parse throw propagates as `.error`),
fail with "No valid workflow data found" when `graphData` is falsy, else
derive the tab name and call the host loader (a host throw propagates). -/
def loadTryBlock (parse : String → Except String JsVal)
    (host : HostCall → Except String Unit)
    (workflowJson promptJson : JsVal) (filename : String) :
    Except (String × Option HostCall) LoadResult :=
  match choosePayload workflowJson promptJson with
  | none => .ok { success := false, error := some "No valid workflow data found"
                  hostCall := none }
  | some raw =>
    match parseIfString parse raw with
    | .error m => .error (m, none)
    | .ok graphData =>
      if !truthy graphData then
        .ok { success := false, error := some "No valid workflow data found"
              hostCall := none }
      else
        let call : HostCall :=
          { graphData := graphData, clean := true, newTab := true
            tabName := deriveTabName filename }
        match host call with
        | .error m => .error (m, some call)
        | .ok _ => .ok { success := true, error := none, hostCall := some call }

/-- `async loadWorkflow(workflowJson, promptJson, filename)`: the `try` block
wrapped in the catch-all returning
`` {success: false, error: `Failed to load workflow: ${err.message}`} ``.
The host call attempted before a host throw (a side effect that already
happened) is still recorded in `hostCall`. -/
def loadWorkflow (parse : String → Except String JsVal)
    (host : HostCall → Except String Unit)
    (workflowJson promptJson : JsVal) (filename : String) : LoadResult :=
  match loadTryBlock parse host workflowJson promptJson filename with
  | .ok r => r
  | .error e =>
    { success := false, error := some ("Failed to load workflow: " ++ e.1)
      hostCall := e.2 }

/-! ## Spec-side tab title (for the refinement claim about title derivation) -/

/-- Specification-side tab title, written from the spec's words: "strip only
the final filename extension (last `.` segment); if the remaining stem is
empty, fall back to a default title (\"Imported Workflow\")".  The final
extension is the (nonempty) segment after the last `.` of the filename; a
name with no dot, or with nothing after its last dot, has no extension to
strip. -/
def specTabTitle (filename : String) : String :=
  let stem :=
    match filename.data.reverse.takeWhile (fun c => c ≠ '.'),
          filename.data.reverse.dropWhile (fun c => c ≠ '.') with
    | ext, '.' :: revStem => if ext = [] then filename else String.mk revStem.reverse
    | _, _ => filename
  if stem = "" then "Imported Workflow" else stem

/-! ## Session lifecycle as a transition system (for the session invariant) -/

/-- One observable transition of the dialog controller.  `show`, `close` and
`toggle` are the lifecycle methods (a click on the overlay backdrop, the ✕
button, and the scheduled auto-close all invoke `close`).  `submitStart` is
the `this.isProcessing = true` write at the start of a running batch: the
submitting event (file-input change or drop) originates inside the dialog,
which is displayed only while `isOpen`, hence its hypothesis.  `submitDone`
is the unconditional `this.isProcessing = false` write when a batch
completes — it can fire in any state, a batch may still be running after
`close()`. -/
inductive Step : DialogState → DialogState → Prop where
  | showDialog (s : DialogState) : Step s (showState s)
  | closeDialog (s : DialogState) : Step s (closeState s)
  | toggleDialog (s : DialogState) : Step s (toggleState s)
  | submitStart (s : DialogState) : s.isOpen = true → s.isProcessing = false →
      Step s { s with isProcessing := true }
  | submitDone (s : DialogState) : Step s { s with isProcessing := false }
  | submitAtomic (s : DialogState) (proc : JsFile → ProcResult)
      (files : Option (List JsFile)) : s.isOpen = true →
      Step s (handleFileSelect proc s files).state

/-- The constructor's initial state: `isOpen = false`, `isProcessing = false`. -/
def initState : DialogState := { isOpen := false, isProcessing := false }

/-- States reachable from the freshly constructed dialog. -/
def Reachable (s : DialogState) : Prop :=
  Relation.ReflTransGen Step initState s

/-! ## Lemmas about the batch loop and `handleFileSelect` -/

theorem stepAcc_fields (proc : JsFile → ProcResult) (f : JsFile) (acc : LoopAcc) :
    (stepAcc proc f acc).successCount + (stepAcc proc f acc).failCount
        = acc.successCount + acc.failCount + 1
    ∧ (stepAcc proc f acc).processed = acc.processed ++ [f]
    ∧ (stepAcc proc f acc).errors.length + acc.failCount
        = acc.errors.length + (stepAcc proc f acc).failCount := by
  cases h : proc f <;> simp [stepAcc, h] <;> omega

theorem processLoop_counts (proc : JsFile → ProcResult) (l : List JsFile) :
    ∀ acc : LoopAcc,
      (processLoop proc l acc).successCount + (processLoop proc l acc).failCount
        = acc.successCount + acc.failCount + l.length := by
  induction l with
  | nil => intro acc; simp [processLoop]
  | cons f rest ih =>
    intro acc
    have hs := (stepAcc_fields proc f acc).1
    have := ih (stepAcc proc f acc)
    simp only [processLoop, List.length_cons]
    omega

theorem processLoop_processed (proc : JsFile → ProcResult) (l : List JsFile) :
    ∀ acc : LoopAcc,
      (processLoop proc l acc).processed = acc.processed ++ l := by
  induction l with
  | nil => intro acc; simp [processLoop]
  | cons f rest ih =>
    intro acc
    have hs := (stepAcc_fields proc f acc).2.1
    simp only [processLoop]
    rw [ih (stepAcc proc f acc), hs, List.append_assoc]
    rfl

theorem processLoop_errors_length (proc : JsFile → ProcResult) (l : List JsFile) :
    ∀ acc : LoopAcc,
      (processLoop proc l acc).errors.length + acc.failCount
        = acc.errors.length + (processLoop proc l acc).failCount := by
  induction l with
  | nil => intro acc; simp [processLoop]
  | cons f rest ih =>
    intro acc
    have h1 := (stepAcc_fields proc f acc).1
    have h2 := (stepAcc_fields proc f acc).2.2
    have h3 := ih (stepAcc proc f acc)
    simp only [processLoop]
    omega

theorem finalizeBatch_state (st : DialogState) (acc : LoopAcc) :
    (finalizeBatch st acc).state = { st with isProcessing := false } := by
  unfold finalizeBatch
  split
  · rfl
  · split <;> rfl

theorem finalizeBatch_successCount (st : DialogState) (acc : LoopAcc) :
    (finalizeBatch st acc).successCount = acc.successCount := by
  unfold finalizeBatch
  split
  · rfl
  · split <;> rfl

theorem finalizeBatch_failCount (st : DialogState) (acc : LoopAcc) :
    (finalizeBatch st acc).failCount = acc.failCount := by
  unfold finalizeBatch
  split
  · rfl
  · split <;> rfl

theorem finalizeBatch_errors (st : DialogState) (acc : LoopAcc) :
    (finalizeBatch st acc).errors = acc.errors := by
  unfold finalizeBatch
  split
  · rfl
  · split <;> rfl

theorem finalizeBatch_processed (st : DialogState) (acc : LoopAcc) :
    (finalizeBatch st acc).processed = acc.processed := by
  unfold finalizeBatch
  split
  · rfl
  · split <;> rfl

theorem handleFileSelect_state_isOpen (proc : JsFile → ProcResult)
    (st : DialogState) (files : Option (List JsFile)) :
    (handleFileSelect proc st files).state.isOpen = st.isOpen := by
  unfold handleFileSelect
  cases files with
  | none => rfl
  | some fs =>
    by_cases h1 : fs.length = 0 <;> by_cases h2 : st.isProcessing <;>
      by_cases h3 : (filterImages fs).length = 0 <;>
      simp [h1, h2, h3, silentReturn, finalizeBatch_state]

theorem handleFileSelect_run (proc : JsFile → ProcResult) (st : DialogState)
    (fs : List JsFile) (hp : st.isProcessing = false)
    (hne : (filterImages fs).length ≠ 0) :
    handleFileSelect proc st (some fs)
      = finalizeBatch st
          (processLoop proc (filterImages fs) (initAcc (filterImages fs).length)) := by
  have h1 : fs.length ≠ 0 := by
    intro h
    rw [List.length_eq_zero.mp h] at hne
    exact hne rfl
  unfold handleFileSelect
  simp [h1, hp, hne]

/-! ## The claims -/

/-- **C1.** For every submitted batch (a call made while no batch is in
flight), over the files that pass the `image/` MIME filter, the batch
processes each filtered file — a per-file failure never stops processing of
the remaining files, so `processed` is the whole filtered list — and the
resulting counts satisfy `successCount + failCount =` number of filtered
image files. -/
theorem batch_counts_cover_filtered (proc : JsFile → ProcResult)
    (st : DialogState) (files : Option (List JsFile))
    (hp : st.isProcessing = false) :
    (handleFileSelect proc st files).successCount
        + (handleFileSelect proc st files).failCount
      = (filterImages (files.getD [])).length
    ∧ (handleFileSelect proc st files).processed = filterImages (files.getD []) := by
  cases files with
  | none => simp [handleFileSelect, silentReturn, filterImages]
  | some fs =>
    by_cases h1 : fs.length = 0
    · rw [List.length_eq_zero.mp h1]
      simp [handleFileSelect, silentReturn, filterImages]
    · by_cases h3 : (filterImages fs).length = 0
      · have he : filterImages fs = [] := List.length_eq_zero.mp h3
        simp only [handleFileSelect, Option.getD]
        simp [h1, hp, h3, he]
      · rw [Option.getD, handleFileSelect_run proc st fs hp h3]
        refine ⟨?_, ?_⟩
        · rw [finalizeBatch_successCount, finalizeBatch_failCount]
          have h := processLoop_counts proc (filterImages fs)
            (initAcc (filterImages fs).length)
          simpa [initAcc] using h
        · rw [finalizeBatch_processed, processLoop_processed]
          simp [initAcc]

/-- Witness for C1: a concrete batch of one PNG and one text file, starting
idle; the text file is filtered out and the counts cover the single image. -/
theorem batch_counts_cover_filtered_witness :
    (handleFileSelect (fun _ => ProcResult.ok) ⟨true, false⟩
        (some [⟨"a.png", "image/png"⟩, ⟨"b.txt", "text/plain"⟩])).successCount
        + (handleFileSelect (fun _ => ProcResult.ok) ⟨true, false⟩
        (some [⟨"a.png", "image/png"⟩, ⟨"b.txt", "text/plain"⟩])).failCount
      = (filterImages ((some [⟨"a.png", "image/png"⟩,
          ⟨"b.txt", "text/plain"⟩] : Option (List JsFile)).getD [])).length
    ∧ (handleFileSelect (fun _ => ProcResult.ok) ⟨true, false⟩
        (some [⟨"a.png", "image/png"⟩, ⟨"b.txt", "text/plain"⟩])).processed
      = filterImages ((some [⟨"a.png", "image/png"⟩,
          ⟨"b.txt", "text/plain"⟩] : Option (List JsFile)).getD []) :=
  batch_counts_cover_filtered (fun _ => ProcResult.ok) ⟨true, false⟩
    (some [⟨"a.png", "image/png"⟩, ⟨"b.txt", "text/plain"⟩]) rfl

theorem finalizeBatch_classification (st : DialogState) (acc : LoopAcc) :
    (acc.successCount > 0 ∧ acc.failCount = 0 →
        (finalizeBatch st acc).pendingCloseDelay = some 1500
        ∧ (finalizeBatch st acc).statuses.getLast?
            = some ("✓ Successfully imported " ++ toString acc.successCount
                      ++ " workflow(s)!", Severity.success))
    ∧ (acc.successCount > 0 ∧ acc.failCount > 0 →
        (finalizeBatch st acc).pendingCloseDelay = none
        ∧ (finalizeBatch st acc).statuses.getLast?
            = some ("Imported " ++ toString acc.successCount ++ " workflow(s), "
                      ++ toString acc.failCount ++ " failed:\n"
                      ++ String.intercalate "\n" acc.errors, Severity.warning))
    ∧ (acc.successCount = 0 →
        (finalizeBatch st acc).pendingCloseDelay = none
        ∧ (finalizeBatch st acc).statuses.getLast?
            = some ("Failed to import workflows:\n"
                      ++ String.intercalate "\n" acc.errors, Severity.error)) := by
  by_cases h1 : acc.successCount = 0
  · have hA : ¬ (acc.successCount > 0 && acc.failCount == 0) = true := by
      simp [h1]
    have hB : ¬ (acc.successCount > 0 && decide (acc.failCount > 0)) = true := by
      simp [h1]
    unfold finalizeBatch
    rw [if_neg hA, if_neg hB]
    exact ⟨fun h => absurd h.1 (by omega), fun h => absurd h.1 (by omega),
      fun _ => ⟨rfl, by simp⟩⟩
  · by_cases h2 : acc.failCount = 0
    · have hA : (acc.successCount > 0 && acc.failCount == 0) = true := by
        simp [h2]; omega
      unfold finalizeBatch
      rw [if_pos hA]
      exact ⟨fun _ => ⟨rfl, by simp⟩, fun h => absurd h.2 (by omega),
        fun h => absurd h h1⟩
    · have hA : ¬ (acc.successCount > 0 && acc.failCount == 0) = true := by
        simp [h2]
      have hB : (acc.successCount > 0 && decide (acc.failCount > 0)) = true := by
        simp; omega
      unfold finalizeBatch
      rw [if_neg hA, if_pos hB]
      exact ⟨fun h => absurd h.2 (by omega), fun _ => ⟨rfl, by simp⟩,
        fun h => absurd h h1⟩

/-- **C2.** After a completed batch (a run started while idle on a nonempty
filtered set), `isOpen` is untouched and `isProcessing` is already reset to
false; if `successCount > 0` and `failCount = 0`, the success message is the
last status shown and a close of the session is scheduled with the fixed
1500 ms delay (`closeState` then yields the closed state); if
`successCount > 0` and `failCount > 0`, no close is scheduled and the last
status is the combined warning message; if `successCount = 0`, no close is
scheduled and the last status is the error message listing every failure
(one recorded error per failed file). -/
theorem final_classification (proc : JsFile → ProcResult) (st : DialogState)
    (fs : List JsFile) (hp : st.isProcessing = false)
    (hne : (filterImages fs).length ≠ 0) :
    (handleFileSelect proc st (some fs)).state
        = { isOpen := st.isOpen, isProcessing := false }
    ∧ ((handleFileSelect proc st (some fs)).successCount > 0
        ∧ (handleFileSelect proc st (some fs)).failCount = 0 →
        (handleFileSelect proc st (some fs)).pendingCloseDelay = some 1500
        ∧ (handleFileSelect proc st (some fs)).statuses.getLast?
            = some ("✓ Successfully imported "
                ++ toString (handleFileSelect proc st (some fs)).successCount
                ++ " workflow(s)!", Severity.success)
        ∧ closeState (handleFileSelect proc st (some fs)).state
            = { isOpen := false, isProcessing := false })
    ∧ ((handleFileSelect proc st (some fs)).successCount > 0
        ∧ (handleFileSelect proc st (some fs)).failCount > 0 →
        (handleFileSelect proc st (some fs)).pendingCloseDelay = none
        ∧ (handleFileSelect proc st (some fs)).statuses.getLast?
            = some ("Imported "
                ++ toString (handleFileSelect proc st (some fs)).successCount
                ++ " workflow(s), "
                ++ toString (handleFileSelect proc st (some fs)).failCount
                ++ " failed:\n"
                ++ String.intercalate "\n" (handleFileSelect proc st (some fs)).errors,
                Severity.warning))
    ∧ ((handleFileSelect proc st (some fs)).successCount = 0 →
        (handleFileSelect proc st (some fs)).pendingCloseDelay = none
        ∧ (handleFileSelect proc st (some fs)).statuses.getLast?
            = some ("Failed to import workflows:\n"
                ++ String.intercalate "\n" (handleFileSelect proc st (some fs)).errors,
                Severity.error))
    ∧ (handleFileSelect proc st (some fs)).errors.length
        = (handleFileSelect proc st (some fs)).failCount := by
  rw [handleFileSelect_run proc st fs hp hne]
  have hcls := finalizeBatch_classification st
    (processLoop proc (filterImages fs) (initAcc (filterImages fs).length))
  have herrlen :
      (processLoop proc (filterImages fs) (initAcc (filterImages fs).length)).errors.length
        = (processLoop proc (filterImages fs) (initAcc (filterImages fs).length)).failCount := by
    have := processLoop_errors_length proc (filterImages fs)
      (initAcc (filterImages fs).length)
    simpa [initAcc] using this
  rw [finalizeBatch_state, finalizeBatch_successCount, finalizeBatch_failCount,
    finalizeBatch_errors]
  exact ⟨rfl, fun h => ⟨(hcls.1 h).1, (hcls.1 h).2, rfl⟩,
    fun h => ⟨(hcls.2.1 h).1, (hcls.2.1 h).2⟩,
    fun h => ⟨(hcls.2.2 h).1, (hcls.2.2 h).2⟩, herrlen⟩

/-- Witness for C2: a fully successful batch of 2 PNG files starting from
the open idle state; after the batch `isProcessing` is false, the 1500 ms
auto-close is scheduled, and `closeState` yields the closed state. -/
theorem final_classification_witness :
    (handleFileSelect (fun _ => ProcResult.ok) ⟨true, false⟩
        (some [⟨"a.png", "image/png"⟩, ⟨"b.png", "image/png"⟩])).state
        = { isOpen := true, isProcessing := false }
    ∧ (handleFileSelect (fun _ => ProcResult.ok) ⟨true, false⟩
        (some [⟨"a.png", "image/png"⟩, ⟨"b.png", "image/png"⟩])).pendingCloseDelay
        = some 1500
    ∧ closeState (handleFileSelect (fun _ => ProcResult.ok) ⟨true, false⟩
        (some [⟨"a.png", "image/png"⟩, ⟨"b.png", "image/png"⟩])).state
        = { isOpen := false, isProcessing := false } := by
  have h := final_classification (fun _ => ProcResult.ok) ⟨true, false⟩
    [⟨"a.png", "image/png"⟩, ⟨"b.png", "image/png"⟩] rfl (by decide)
  refine ⟨h.1, (h.2.1 ?_).1, (h.2.1 ?_).2.2⟩ <;> decide

/-- Counterexample to **C3** as stated: a submission whose image set is
empty because the selection itself is empty (`files.length === 0`) is
dropped by the first guard of `handleFileSelect` — it performs zero
extraction calls and mutates nothing, but shows **no** status message, so no
"no valid image files" validation error is reported. -/
theorem no_valid_images_counterexample :
    handleFileSelect (fun _ => ProcResult.ok) ⟨true, false⟩ (some [])
      = silentReturn ⟨true, false⟩
    ∧ (handleFileSelect (fun _ => ProcResult.ok) ⟨true, false⟩ (some [])).statuses = []
    ∧ (handleFileSelect (fun _ => ProcResult.ok) ⟨true, false⟩ (some [])).statuses
        ≠ [("No valid image files selected.", Severity.error)] :=
  ⟨rfl, rfl, by decide⟩

/-- **C3 (amended).** For every **nonempty** submission made while idle whose
set of `image/` files is empty, `handleFileSelect` performs zero extraction
calls (`processed = []`), shows exactly the validation error
"No valid image files selected.", and mutates no session state; an empty or
absent selection instead returns silently (still zero calls, no state
mutation, but no validation error). -/
theorem no_valid_images (proc : JsFile → ProcResult) (st : DialogState)
    (fs : List JsFile) (hp : st.isProcessing = false) (hfs : fs ≠ [])
    (hflt : filterImages fs = []) :
    handleFileSelect proc st (some fs)
      = { state := st
          statuses := [("No valid image files selected.", Severity.error)]
          processed := [], successCount := 0, failCount := 0, errors := []
          pendingCloseDelay := none }
    ∧ handleFileSelect proc st none = silentReturn st
    ∧ handleFileSelect proc st (some []) = silentReturn st := by
  have h1 : fs.length ≠ 0 := fun h => hfs (List.length_eq_zero.mp h)
  refine ⟨?_, rfl, rfl⟩
  unfold handleFileSelect
  simp [h1, hp, hflt]

/-- Witness for C3: one plain-text file submitted while open and idle. -/
theorem no_valid_images_witness :
    handleFileSelect (fun _ => ProcResult.thrown "boom") ⟨true, false⟩
        (some [⟨"notes.txt", "text/plain"⟩])
      = { state := ⟨true, false⟩
          statuses := [("No valid image files selected.", Severity.error)]
          processed := [], successCount := 0, failCount := 0, errors := []
          pendingCloseDelay := none }
    ∧ handleFileSelect (fun _ => ProcResult.thrown "boom") ⟨true, false⟩ none
        = silentReturn ⟨true, false⟩
    ∧ handleFileSelect (fun _ => ProcResult.thrown "boom") ⟨true, false⟩ (some [])
        = silentReturn ⟨true, false⟩ :=
  no_valid_images (fun _ => ProcResult.thrown "boom") ⟨true, false⟩
    [⟨"notes.txt", "text/plain"⟩] rfl (by decide) (by decide)

/-- Counterexample to **C4** as stated: a call made while `isProcessing` is
true whose selection is empty hits the `files.length === 0` guard first and
returns silently — no "busy" warning is reported. -/
theorem busy_reject_counterexample :
    (handleFileSelect (fun _ => ProcResult.fail "x") ⟨true, true⟩ (some [])).statuses
        = []
    ∧ (handleFileSelect (fun _ => ProcResult.fail "x") ⟨true, true⟩ (some [])).statuses
        ≠ [("Please wait for current import to complete...", Severity.warning)] :=
  ⟨rfl, by decide⟩

/-- **C4 (amended).** For every call to `handleFileSelect` with a
**nonempty** selection made while `isProcessing` is true, exactly the
non-fatal "busy" warning is reported, no session state changes, and no
extraction is started (`processed = []`); since nothing is mutated, the
in-flight batch's eventual outcome is unaffected.  (An empty or absent
selection while busy returns silently without the warning.) -/
theorem busy_reject (proc : JsFile → ProcResult) (st : DialogState)
    (fs : List JsFile) (hp : st.isProcessing = true) (hfs : fs ≠ []) :
    handleFileSelect proc st (some fs)
      = { state := st
          statuses := [("Please wait for current import to complete...",
                        Severity.warning)]
          processed := [], successCount := 0, failCount := 0, errors := []
          pendingCloseDelay := none } := by
  have h1 : fs.length ≠ 0 := fun h => hfs (List.length_eq_zero.mp h)
  unfold handleFileSelect
  simp [h1, hp]

/-- Witness for C4: one PNG submitted while a batch is in flight. -/
theorem busy_reject_witness :
    handleFileSelect (fun _ => ProcResult.ok) ⟨true, true⟩
        (some [⟨"a.png", "image/png"⟩])
      = { state := ⟨true, true⟩
          statuses := [("Please wait for current import to complete...",
                        Severity.warning)]
          processed := [], successCount := 0, failCount := 0, errors := []
          pendingCloseDelay := none } :=
  busy_reject (fun _ => ProcResult.ok) ⟨true, true⟩ [⟨"a.png", "image/png"⟩]
    rfl (by decide)

/-- Counterexample to **C5** as stated: a non-success HTTP status (here 500)
does **not** produce the reason `"Extraction failed: 500"`; the explicit
`throw` inside the `try` block is re-wrapped by the function's own catch-all,
doubling the prefix. -/
theorem extract_http_error_counterexample :
    extractWorkflowFromData
        (.response false 500 (.ok ⟨true, none, .vNull, .vNull, .vNull⟩))
      = .failure "Extraction failed: Extraction failed: 500"
    ∧ extractWorkflowFromData
        (.response false 500 (.ok ⟨true, none, .vNull, .vNull, .vNull⟩))
      ≠ .failure "Extraction failed: 500" :=
  ⟨rfl, by decide⟩

/-- **C5 (amended).** A non-success HTTP status yields
`Failure` with reason `"Extraction failed: Extraction failed: <status>"`
(the prefix is applied twice: once by the explicit `throw`, once by the
catch-all); a transport-level exception of message `m` — at the fetch or in
`response.json()` — yields reason `"Extraction failed: " ++ m`.  In no case
does an exception propagate out of `extractWorkflowFromData`: it is a total
function into `ExtractResult`. -/
theorem extract_error_reasons (status : Nat)
    (body : Except String ExtractBody) (m : String) :
    extractWorkflowFromData (.response false status body)
      = .failure ("Extraction failed: Extraction failed: " ++ toString status)
    ∧ extractWorkflowFromData (.throws m)
      = .failure ("Extraction failed: " ++ m)
    ∧ extractWorkflowFromData (.response true status (.error m))
      = .failure ("Extraction failed: " ++ m) := by
  refine ⟨?_, rfl, rfl⟩
  show ExtractResult.failure ("Extraction failed: "
      ++ ("Extraction failed: " ++ toString status)) = _
  have hlit : ("Extraction failed: " ++ "Extraction failed: " : String)
      = "Extraction failed: Extraction failed: " := rfl
  rw [← String.append_assoc, hlit]

/-- Counterexample to **C6** as stated: the body `{success: false, error: ""}`
has its `error` field **present**, yet the fallback reason is returned —
`result.error || "No workflow found in image"` tests truthiness, not
presence, so the claimed `error ?? fallback` semantics does not hold. -/
theorem extract_error_field_counterexample :
    extractWorkflowFromData
        (.response true 200 (.ok ⟨false, some "", .vNull, .vNull, .vNull⟩))
      = .failure "No workflow found in image"
    ∧ extractWorkflowFromData
        (.response true 200 (.ok ⟨false, some "", .vNull, .vNull, .vNull⟩))
      ≠ .failure "" :=
  ⟨rfl, by decide⟩

/-- **C6 (amended).** For every extraction response with success HTTP status
and JSON body `{success: false, error?}`, the client returns `Failure` whose
reason is the body's `error` field when that field is present **and
non-empty**, and `"No workflow found in image"` when it is absent **or the
empty string** (JavaScript `error || fallback` truthiness semantics). -/
theorem extract_error_field (status : Nat) (e : String) (w p i : JsVal) :
    (e ≠ "" →
      extractWorkflowFromData (.response true status (.ok ⟨false, some e, w, p, i⟩))
        = .failure e)
    ∧ extractWorkflowFromData (.response true status (.ok ⟨false, none, w, p, i⟩))
        = .failure "No workflow found in image"
    ∧ extractWorkflowFromData (.response true status (.ok ⟨false, some "", w, p, i⟩))
        = .failure "No workflow found in image" := by
  refine ⟨fun h => ?_, rfl, rfl⟩
  unfold extractWorkflowFromData extractTryBlock jsOrElse
  simp [h]

/-- Witness for C6: the reason announced by the backend for an image that
carries only unrelated generation-parameter metadata is passed through. -/
theorem extract_error_field_witness :
    extractWorkflowFromData (.response true 200
        (.ok ⟨false, some "only Automatic1111 parameters found",
              .vNull, .vNull, .vNull⟩))
      = .failure "only Automatic1111 parameters found"
    ∧ extractWorkflowFromData (.response true 200
        (.ok ⟨false, none, .vNull, .vNull, .vNull⟩))
      = .failure "No workflow found in image" :=
  ⟨(extract_error_field 200 "only Automatic1111 parameters found"
      .vNull .vNull .vNull).1 (by decide),
   (extract_error_field 200 "x" .vNull .vNull .vNull).2.1⟩

/-- Counterexample to **C7** as stated: with `workflowGraph` **present** but
falsy (the empty string) and `apiPrompt` present and truthy, the loader uses
`apiPrompt`, not `workflowGraph` — presence alone does not decide the
preference. -/
theorem payload_preference_counterexample :
    loadWorkflow (fun _ => Except.ok (.vObj 1)) (fun _ => Except.ok ())
        (.vStr "") (.vObj 7) "x.png"
      = { success := true, error := none
          hostCall := some { graphData := .vObj 7, clean := true, newTab := true
                             tabName := "x" } }
    ∧ (JsVal.vStr "") ≠ JsVal.vUndefined
    ∧ (JsVal.vObj 7) ≠ JsVal.vStr "" :=
  ⟨rfl, by decide, by decide⟩

/-- **C7 (amended).** For every call to `loadWorkflow`: if `workflowGraph`
is **truthy** it is the payload used (`apiPrompt` is ignored even when also
present); otherwise if `apiPrompt` is truthy it is used; if neither is
truthy the call fails with reason "No valid workflow data found"; a textual
payload is parsed, and a parse failure is returned as a load failure
(`"Failed to load workflow: <message>"`) rather than thrown. -/
theorem payload_preference (parse : String → Except String JsVal)
    (host : HostCall → Except String Unit) (w p : JsVal) (fn : String) :
    (truthy w = true →
      loadWorkflow parse host w p fn = loadWorkflow parse host w .vUndefined fn)
    ∧ (truthy w = false → truthy p = true →
      loadWorkflow parse host w p fn = loadWorkflow parse host .vUndefined p fn)
    ∧ (truthy w = false → truthy p = false →
      loadWorkflow parse host w p fn
        = { success := false, error := some "No valid workflow data found"
            hostCall := none })
    ∧ (∀ s m, s ≠ "" → parse s = .error m →
      loadWorkflow parse host (.vStr s) p fn
        = { success := false, error := some ("Failed to load workflow: " ++ m)
            hostCall := none }) := by
  refine ⟨fun hw => ?_, fun hw hp => ?_, fun hw hp => ?_, fun s m hs hparse => ?_⟩
  · unfold loadWorkflow loadTryBlock
    simp [choosePayload, hw]
  · have hu : truthy JsVal.vUndefined = false := rfl
    unfold loadWorkflow loadTryBlock
    simp [choosePayload, hw, hp, hu]
  · unfold loadWorkflow loadTryBlock
    simp [choosePayload, hw, hp]
  · have hw : truthy (JsVal.vStr s) = true := by simp [truthy, hs]
    unfold loadWorkflow loadTryBlock
    simp [choosePayload, parseIfString, hw, hparse]

/-- Witness for C7: a truthy graph payload makes the prompt irrelevant; no
payload at all yields the no-data failure; an unparsable textual graph
yields the wrapped parse failure. -/
theorem payload_preference_witness :
    loadWorkflow (fun _ => Except.ok (.vObj 1)) (fun _ => Except.ok ())
        (.vObj 3) (.vObj 7) "x.png"
      = loadWorkflow (fun _ => Except.ok (.vObj 1)) (fun _ => Except.ok ())
        (.vObj 3) .vUndefined "x.png"
    ∧ loadWorkflow (fun _ => Except.ok (.vObj 1)) (fun _ => Except.ok ())
        .vNull .vUndefined "x.png"
      = { success := false, error := some "No valid workflow data found"
          hostCall := none }
    ∧ loadWorkflow (fun _ => Except.error "Unexpected end of JSON input")
        (fun _ => Except.ok ()) (.vStr "nonsense") .vNull "x.png"
      = { success := false
          error := some ("Failed to load workflow: " ++ "Unexpected end of JSON input")
          hostCall := none } :=
  ⟨(payload_preference (fun _ => Except.ok (.vObj 1)) (fun _ => Except.ok ())
      (.vObj 3) (.vObj 7) "x.png").1 rfl,
   (payload_preference (fun _ => Except.ok (.vObj 1)) (fun _ => Except.ok ())
      .vNull .vUndefined "x.png").2.2.1 rfl rfl,
   (payload_preference (fun _ => Except.error "Unexpected end of JSON input")
      (fun _ => Except.ok ()) (.vStr "nonsense") .vNull "x.png").2.2.2
      "nonsense" "Unexpected end of JSON input" (by decide) rfl⟩

/-- **C10.** Payload selection in `loadWorkflow` is decided by truthiness,
not presence: a present-but-falsy `workflowGraph` (the empty string) selects
exactly as if it were absent, so `apiPrompt` is used when truthy; and when
the selected textual payload JSON-parses to `null`, `graphData` is falsy and
the call fails with "No valid workflow data found" even though a payload
field was supplied. -/
theorem truthiness_selection (parse : String → Except String JsVal)
    (host : HostCall → Except String Unit) (p : JsVal) (fn s : String) :
    choosePayload (.vStr "") p = choosePayload .vUndefined p
    ∧ (truthy p = true → choosePayload (.vStr "") p = some p)
    ∧ loadWorkflow parse host (.vStr "") p fn
        = loadWorkflow parse host .vUndefined p fn
    ∧ (s ≠ "" → parse s = .ok .vNull →
        loadWorkflow parse host (.vStr s) p fn
          = { success := false, error := some "No valid workflow data found"
              hostCall := none }) := by
  refine ⟨rfl, fun hp => ?_, rfl, fun hs hparse => ?_⟩
  · have h0 : truthy (JsVal.vStr "") = false := rfl
    simp [choosePayload, h0, hp]
  · have hw : truthy (JsVal.vStr s) = true := by simp [truthy, hs]
    have hn : truthy JsVal.vNull = false := rfl
    unfold loadWorkflow loadTryBlock
    simp [choosePayload, parseIfString, hw, hparse, hn]

/-- Witness for C10: with `workflow = ""` and a truthy `prompt`, the prompt
is loaded; the string `"null"` parses to `null` and yields the no-data
failure. -/
theorem truthiness_selection_witness :
    choosePayload (.vStr "") (.vObj 7) = some (.vObj 7)
    ∧ loadWorkflow (fun t => if t = "null" then Except.ok .vNull
          else Except.ok (.vObj 1)) (fun _ => Except.ok ())
        (.vStr "null") .vUndefined "x.png"
      = { success := false, error := some "No valid workflow data found"
          hostCall := none } :=
  ⟨(truthiness_selection (fun _ => Except.ok (.vObj 1)) (fun _ => Except.ok ())
      (.vObj 7) "x.png" "s").2.1 rfl,
   (truthiness_selection (fun t => if t = "null" then Except.ok .vNull
        else Except.ok (.vObj 1)) (fun _ => Except.ok ())
      .vUndefined "x.png" "null").2.2.2 (by decide) rfl⟩

theorem dropWhile_head_false {α : Type} (p : α → Bool) (l : List α) :
    ∀ (x : α) (xs : List α), l.dropWhile p = x :: xs → p x = false := by
  induction l with
  | nil => intro x xs h; simp [List.dropWhile] at h
  | cons a t ih =>
    intro x xs h
    rw [List.dropWhile_cons] at h
    by_cases hp : p a
    · rw [if_pos hp] at h; exact ih x xs h
    · rw [if_neg hp] at h
      injection h with h1 _
      subst h1
      simpa using hp

theorem revStemAfterStrip_spec (cs : List Char) :
    ∀ seen : Bool, (∀ c ∈ cs, c ≠ '/') →
      revStemAfterStrip cs seen
        = match cs.dropWhile (fun c => decide (c ≠ '.')) with
          | '.' :: rest =>
              if seen || !(cs.takeWhile (fun c => decide (c ≠ '.'))).isEmpty
              then some rest else none
          | _ => none := by
  induction cs with
  | nil => intro seen _; rfl
  | cons c t ih =>
    intro seen h
    by_cases hc : c = '.'
    · subst hc
      simp [revStemAfterStrip, List.dropWhile_cons, List.takeWhile_cons]
    · have hs : c ≠ '/' := h c (List.mem_cons_self c t)
      have ht : ∀ x ∈ t, x ≠ '/' := fun x hx => h x (List.mem_cons_of_mem c hx)
      have hL : revStemAfterStrip (c :: t) seen = revStemAfterStrip t true := by
        simp [revStemAfterStrip, hc, hs]
      rw [hL, ih true ht]
      simp only [List.dropWhile_cons, List.takeWhile_cons]
      cases hD : t.dropWhile (fun c => decide (c ≠ '.')) with
      | nil => simp [hc, hD]
      | cons x rest =>
        by_cases hx : x = '.'
        · subst hx
          simp [hc, hD]
        · simp [hc, hD, hx]

theorem deriveTabName_eq_spec (s : String) (h : ∀ c ∈ s.data, c ≠ '/') :
    deriveTabName s = specTabTitle s := by
  have h2 : ∀ c ∈ s.data.reverse, c ≠ '/' := fun c hc => h c (List.mem_reverse.mp hc)
  unfold deriveTabName specTabTitle stripLastExtension
  rw [revStemAfterStrip_spec s.data.reverse false h2]
  cases hD : s.data.reverse.dropWhile (fun c => decide (c ≠ '.')) with
  | nil => rfl
  | cons x rest =>
    have hx : x = '.' := by
      have h3 := dropWhile_head_false (fun c => decide (c ≠ '.')) s.data.reverse x rest hD
      simpa using h3
    subst hx
    cases hE : s.data.reverse.takeWhile (fun c => decide (c ≠ '.')) with
    | nil => rfl
    | cons e es => rfl

/-- **C8.** For every filename (filenames contain no path separator `/`),
the derived tab title agrees with the specification "strip only the final
extension — the last `.` segment — and fall back to \"Imported Workflow\"
when the remaining stem is empty": `deriveTabName` equals the spec-side
`specTabTitle`; in particular `"render.final.png"` yields `"render.final"`
and `".png"` yields the fallback title. -/
theorem tab_title_derivation (fn : String) (h : ∀ c ∈ fn.data, c ≠ '/') :
    deriveTabName fn = specTabTitle fn
    ∧ deriveTabName "render.final.png" = "render.final"
    ∧ deriveTabName ".png" = "Imported Workflow" :=
  ⟨deriveTabName_eq_spec fn h, by decide, by decide⟩

/-- Witness for C8: evaluated at the filename `"render.final.png"`. -/
theorem tab_title_derivation_witness :
    deriveTabName "render.final.png" = specTabTitle "render.final.png"
    ∧ deriveTabName "render.final.png" = "render.final"
    ∧ deriveTabName ".png" = "Imported Workflow" :=
  tab_title_derivation "render.final.png" (by decide)

/-- **C9.** In every state reachable by the controller's operations
(`toggle`, `show`, `close`, file submission — whose triggering events
originate inside the dialog, displayed only while `isOpen` — and batch
start/completion), `isProcessing = true` implies `isOpen = true`; and
`close()` yields `isOpen = false` and `isProcessing = false`
unconditionally, from any state, including mid-flight ones. -/
theorem session_invariant (s : DialogState) (h : Reachable s) :
    (s.isProcessing = true → s.isOpen = true)
    ∧ closeState s = { isOpen := false, isProcessing := false } := by
  refine ⟨?_, rfl⟩
  induction h with
  | refl => intro hp; exact absurd hp (by simp [initState])
  | tail hst step ih =>
    rename_i b c
    intro hp
    cases step with
    | showDialog => simp [showState]
    | closeDialog => exact absurd hp (by simp [closeState])
    | toggleDialog =>
      by_cases ho : b.isOpen = true
      · exact absurd hp (by simp [toggleState, ho, closeState])
      · simp [toggleState, ho, showState]
    | submitStart hOpen hIdle => simpa using hOpen
    | submitDone => exact absurd hp (by simp)
    | submitAtomic proc files hOpen =>
      rw [handleFileSelect_state_isOpen]
      exact hOpen

/-- Witness for C9: the mid-flight state (open, processing), reached by
showing the dialog and starting a batch, satisfies the invariant, and
closing from it yields the fully reset closed state. -/
theorem session_invariant_witness :
    ((⟨true, true⟩ : DialogState).isProcessing = true
      → (⟨true, true⟩ : DialogState).isOpen = true)
    ∧ closeState ⟨true, true⟩ = { isOpen := false, isProcessing := false } :=
  session_invariant ⟨true, true⟩
    (Relation.ReflTransGen.tail
      (Relation.ReflTransGen.tail Relation.ReflTransGen.refl
        (Step.showDialog initState))
      (Step.submitStart ⟨true, false⟩ rfl rfl))

end WorkflowImporter
